import Mathlib

/-
Verification of the Ontario Trails service worker caching layer
(service-worker.js): request classification, per-category retrieval
strategies, FIFO eviction, and the versioned-partition lifecycle.

The JavaScript source is shallowly embedded: a cache partition is an
association list in insertion order (oldest first), responses carry the
fields the worker inspects (status, statusText, type, body), and each
fetch-event branch becomes a pure function from the cache state and the
network outcome to the delivered response, the new cache state, and the
lists of actions performed before the response is returned (fg) versus
fired-and-forgotten via waitUntil (bg).
-/

set_option autoImplicit false
set_option maxHeartbeats 1000000

namespace SW

/-- Response.type values the worker inspects; opq stands for the opaque type. -/
inductive RType
  | basic
  | cors
  | defaultT
  | errorT
  | opq
deriving DecidableEq

/-- The parts of a parsed URL the worker reads: url.origin, url.host, url.pathname. -/
structure SWURL where
  origin : String
  host : String
  pathname : String
deriving DecidableEq

/-- Request.mode values; the worker only distinguishes navigate from the rest. -/
inductive ReqMode
  | navigate
  | cors
  | noCors
  | sameOrigin
deriving DecidableEq

/-- The parts of a Request the worker reads: method, the range header guard,
mode, and the parsed URL. -/
structure SWRequest where
  method : String
  hasRange : Bool
  mode : ReqMode
  url : SWURL
deriving DecidableEq

/-- A stored or fetched Response: status, statusText, type, body bytes. -/
structure SWResponse where
  status : Nat
  statusText : String
  rtype : RType
  body : String
deriving DecidableEq

/-- Response.ok of the platform: status in the range 200..299. -/
def respOk (r : SWResponse) : Bool :=
  decide (200 ≤ r.status) && decide (r.status ≤ 299)

/-- new Response "Offline" with status 503 and statusText "Offline". -/
def offline503 : SWResponse :=
  { status := 503, statusText := "Offline", rtype := RType.defaultT, body := "Offline" }

/-- netRes.ok or netRes.type === opaque (store condition of the data and tile branches). -/
def okOrOpq (r : SWResponse) : Bool :=
  respOk r || decide (r.rtype = RType.opq)

/-- netRes.ok and type basic or default (store condition of the static branch). -/
def okBasicOrDefault (r : SWResponse) : Bool :=
  respOk r && (decide (r.rtype = RType.basic) || decide (r.rtype = RType.defaultT))

/-- const VERSION = v3. -/
def VERSION : String := "v3"

/-- Name of the static partition for the current version. -/
def STATIC_CACHE : String := "ontario-trails-static-" ++ VERSION

/-- Name of the data partition for the current version. -/
def DATA_CACHE : String := "ontario-trails-data-" ++ VERSION

/-- Name of the tile partition for the current version. -/
def TILE_CACHE : String := "ontario-trails-tiles-" ++ VERSION

/-- The LIMITS table: per-partition maximum entry counts; none for unknown names
(an absent property reads as undefined in JavaScript). -/
def LIMITS (name : String) : Option Nat :=
  if name = STATIC_CACHE then some 40
  else if name = DATA_CACHE then some 40
  else if name = TILE_CACHE then some 400
  else none

/-- A cache partition: request-keyed entries in insertion order, oldest first. -/
abbrev Cache := List (SWURL × SWResponse)

/-- cache.match: the first (unique) entry whose key equals the request key.
The ignoreVary flag of the source is absorbed by keying entries on the URL alone. -/
def cacheMatch (c : Cache) (k : SWURL) : Option SWResponse :=
  (List.find? (fun e => decide (e.1 = k)) c).map Prod.snd

/-- The entries of a partition with any entry for key k removed. -/
def cacheDeleteKey (c : Cache) (k : SWURL) : Cache :=
  List.filter (fun e => decide (e.1 ≠ k)) c

/-- cache.put: replace any entry for the key and append the new entry as the
newest one (the Cache API batch operation deletes the match, then appends). -/
def cachePut (c : Cache) (k : SWURL) (r : SWResponse) : Cache :=
  cacheDeleteKey c k ++ [(k, r)]

/-- cache.keys(): the request keys in insertion order, oldest first. -/
def cacheKeys (c : Cache) : List SWURL :=
  List.map Prod.fst c

/-- trimCache: a falsy maxEntries (undefined or 0) is a no-op; otherwise, when
the key count exceeds the limit, delete the oldest keys.slice(0, length - max). -/
def trimCache (c : Cache) (maxEntries : Option Nat) : Cache :=
  match maxEntries with
  | none => c
  | some 0 => c
  | some (m + 1) => if List.length c ≤ m + 1 then c else List.drop (List.length c - (m + 1)) c

/-- Lowercased character list of a string, for the case-insensitive regex tests. -/
def lowerS (s : String) : List Char :=
  List.map Char.toLower s.data

/-- Does the pattern occur at the start of the string? -/
def prefMatch : List Char → List Char → Bool
  | [], _ => true
  | _ :: _, [] => false
  | a :: as, b :: bs => a == b && prefMatch as bs

/-- Does the pattern occur anywhere in the string (unanchored regex test)? -/
def subMatch (p : List Char) : List Char → Bool
  | [] => prefMatch p []
  | s@(_ :: rest) => prefMatch p s || subMatch p rest

/-- Does the pattern occur at the end of the string (dollar-anchored regex test)? -/
def sufMatch (p s : List Char) : Bool :=
  prefMatch (List.reverse p) (List.reverse s)

/-- The character admissible right after an extension in the path regexes:
end of string, a question mark, or a hash. -/
def extBoundary : List Char → Bool
  | [] => true
  | c :: _ => c == '?' || c == '#'

/-- Does one of the dotted extensions occur here, followed by a boundary? -/
def extHit (es : List (List Char)) (s : List Char) : Bool :=
  es.any (fun e => prefMatch e s && extBoundary (List.drop (List.length e) s))

/-- Scan the path for an occurrence of one of the extensions at a boundary. -/
def extScan (es : List (List Char)) : List Char → Bool
  | [] => extHit es []
  | s@(_ :: rest) => extHit es s || extScan es rest

/-- The alternatives of the static-asset extension regex. -/
def staticExts : List (List Char) :=
  [".html".data, ".htm".data, ".css".data, ".js".data, ".webmanifest".data,
   ".png".data, ".jpg".data, ".jpeg".data, ".svg".data, ".ico".data]

/-- The dataset extension of the data regex. -/
def dataExts : List (List Char) := [".geojson".data]

/-- isSameOrigin: url.origin equals self.location.origin (the so parameter). -/
def isSameOrigin (so : String) (u : SWURL) : Bool :=
  u.origin == so

/-- isDataURL: same origin and the geojson extension regex tests the pathname. -/
def isDataURL (so : String) (u : SWURL) : Bool :=
  isSameOrigin so u && extScan dataExts (lowerS u.pathname)

/-- isStaticURL: same origin and the static extension regex tests the pathname. -/
def isStaticURL (so : String) (u : SWURL) : Bool :=
  isSameOrigin so u && extScan staticExts (lowerS u.pathname)

/-- Characters of tile.openstreetmap.org. -/
def osmChars : List Char := "tile.openstreetmap.org".data

/-- Characters of ws.lio.lrc.gov.on.ca. -/
def lioChars : List Char := "ws.lio.lrc.gov.on.ca".data

/-- Characters of ws.geoservices.lrc.gov.on.ca. -/
def geoChars : List Char := "ws.geoservices.lrc.gov.on.ca".data

/-- Characters of arcgisonline.com. -/
def arcChars : List Char := "arcgisonline.com".data

/-- Characters of unpkg.com. -/
def unpkgChars : List Char := "unpkg.com".data

/-- The OSM host regex: anchored at both ends with a label boundary, so the
host is exactly tile.openstreetmap.org or ends in .tile.openstreetmap.org. -/
def reOsm (h : List Char) : Bool :=
  h == osmChars || sufMatch ('.' :: osmChars) h

/-- The LIO/GeoServices host regex: unanchored, so it is a substring test. -/
def reLio (h : List Char) : Bool :=
  subMatch lioChars h || subMatch geoChars h

/-- The arcgisonline host regex: dollar-anchored suffix test. -/
def reArc (h : List Char) : Bool :=
  sufMatch arcChars h

/-- The unpkg host regex: dollar-anchored suffix test. -/
def reUnpkg (h : List Char) : Bool :=
  sufMatch unpkgChars h

/-- isTileOrCDN: the four case-insensitive host regex tests, in source order. -/
def isTileOrCDN (u : SWURL) : Bool :=
  reOsm (lowerS u.host) || reLio (lowerS u.host) || reArc (lowerS u.host) || reUnpkg (lowerS u.host)

/-- The five request categories of the fetch handler. -/
inductive Category
  | navigation
  | static
  | dataCat
  | tileOrCdn
  | other
deriving DecidableEq

/-- The dispatch order of the fetch handler: navigation mode first, then the
static, data, and tile-or-cdn URL tests, else other. -/
def classify (so : String) (req : SWRequest) : Category :=
  if req.mode = ReqMode.navigate then Category.navigation
  else if isStaticURL so req.url then Category.static
  else if isDataURL so req.url then Category.dataCat
  else if isTileOrCDN req.url then Category.tileOrCdn
  else Category.other

/-- Observable actions of one request handling; netFetch records whether the
fetch was issued with the no-store cache directive. -/
inductive Action
  | netFetch (noStore : Bool)
  | cacheWrite
  | trimRun
deriving DecidableEq

/-- Result of one strategy run: the delivered response, the partition after all
tasks settle, the actions awaited before the response is returned (fg), and the
actions detached via event.waitUntil (bg). -/
structure StratResult where
  resp : SWResponse
  cache : Cache
  fg : List Action
  bg : List Action
deriving DecidableEq

/-- Outcome of an undisturbed network fetch: a resolved response or a rejection. -/
def NetOutcome := Option SWResponse

/-- Behaviour of the network for one request: a response arriving after t
milliseconds, or a network error. -/
inductive NetBehavior
  | respondsIn (t : Nat) (r : SWResponse)
  | netError
deriving DecidableEq

/-- A plain fetch (no timer): the response whenever it arrives, or the error. -/
def netOf : NetBehavior → Option SWResponse
  | NetBehavior.respondsIn _ r => some r
  | NetBehavior.netError => none

/-- fromNetworkWithTimeout: an abort timer of ms milliseconds races the fetch;
a response arriving before the timer wins, otherwise the abort rejects. -/
def fromNetworkWithTimeout (ms : Nat) (nb : NetBehavior) : Option SWResponse :=
  match nb with
  | NetBehavior.respondsIn t r => if t < ms then some r else none
  | NetBehavior.netError => none

/-- The timeout the data branch passes to fromNetworkWithTimeout. -/
def DATA_TIMEOUT_MS : Nat := 8000

/-- The static branch (cache-first): serve a cached entry with no fetch; on a
miss fetch, store and trim in the background only an ok basic or default
response, return the network response, or the synthesized 503 on rejection. -/
def staticStrategy (c : Cache) (k : SWURL) (net : Option SWResponse) : StratResult :=
  match cacheMatch c k with
  | some cached => { resp := cached, cache := c, fg := [], bg := [] }
  | none =>
    match net with
    | some r =>
      if okBasicOrDefault r then
        { resp := r, cache := trimCache (cachePut c k r) (LIMITS STATIC_CACHE),
          fg := [Action.netFetch false], bg := [Action.cacheWrite, Action.trimRun] }
      else
        { resp := r, cache := c, fg := [Action.netFetch false], bg := [] }
    | none =>
      { resp := offline503, cache := c, fg := [Action.netFetch false], bg := [] }

/-- The data branch (network-first with timeout): fetch through
fromNetworkWithTimeout with the 8000 ms limit and a no-store fetch; store and
trim in the background when ok or opaque and return the network response; on
rejection or timeout fall back to the cached entry, else the synthesized 503. -/
def dataStrategy (c : Cache) (k : SWURL) (nb : NetBehavior) : StratResult :=
  match fromNetworkWithTimeout DATA_TIMEOUT_MS nb with
  | some r =>
    if okOrOpq r then
      { resp := r, cache := trimCache (cachePut c k r) (LIMITS DATA_CACHE),
        fg := [Action.netFetch true], bg := [Action.cacheWrite, Action.trimRun] }
    else
      { resp := r, cache := c, fg := [Action.netFetch true], bg := [] }
  | none =>
    match cacheMatch c k with
    | some cached => { resp := cached, cache := c, fg := [Action.netFetch true], bg := [] }
    | none => { resp := offline503, cache := c, fg := [Action.netFetch true], bg := [] }

/-- The tile branch (stale-while-revalidate): with a cached entry, return it at
once and detach the revalidation (a no-store fetch that stores and trims when ok
or opaque); without one, await the revalidation, return its response when the
fetch resolved, else the synthesized 503. -/
def tileStrategy (c : Cache) (k : SWURL) (net : Option SWResponse) : StratResult :=
  match cacheMatch c k with
  | some cached =>
    match net with
    | some r =>
      if okOrOpq r then
        { resp := cached, cache := trimCache (cachePut c k r) (LIMITS TILE_CACHE),
          fg := [], bg := [Action.netFetch true, Action.cacheWrite, Action.trimRun] }
      else
        { resp := cached, cache := c, fg := [], bg := [Action.netFetch true] }
    | none =>
      { resp := cached, cache := c, fg := [], bg := [Action.netFetch true] }
  | none =>
    match net with
    | some r =>
      if okOrOpq r then
        { resp := r, cache := trimCache (cachePut c k r) (LIMITS TILE_CACHE),
          fg := [Action.netFetch true, Action.cacheWrite, Action.trimRun], bg := [] }
      else
        { resp := r, cache := c, fg := [Action.netFetch true], bg := [] }
    | none =>
      { resp := offline503, cache := c, fg := [Action.netFetch true], bg := [] }

/-- The key the navigation fallback looks up: the ./index.html shell entry. -/
def indexKey (so : String) : SWURL :=
  { origin := so, host := "", pathname := "./index.html" }

/-- The navigation branch: a preload response wins; else network; else the
cached index.html of the static partition; else the synthesized 503. -/
def navigationStrategy (stc : Cache) (ik : SWURL) (preload : Option SWResponse)
    (net : Option SWResponse) : SWResponse × List Action × List Action :=
  match preload with
  | some p => (p, [], [])
  | none =>
    match net with
    | some r => (r, [Action.netFetch false], [])
    | none =>
      match cacheMatch stc ik with
      | some cached => (cached, [Action.netFetch false], [])
      | none => (offline503, [Action.netFetch false], [])

/-- The first match for the key across the open partitions, in order. -/
def scanCaches : List Cache → SWURL → Option SWResponse
  | [], _ => none
  | c :: cs, k =>
    match cacheMatch c k with
    | some r => some r
    | none => scanCaches cs k

/-- The other branch: network, else a linear scan of every partition, else the
synthesized 503; it never writes. -/
def otherStrategy (cs : List Cache) (k : SWURL) (net : Option SWResponse) :
    SWResponse × List Action × List Action :=
  match net with
  | some r => (r, [Action.netFetch false], [])
  | none =>
    match scanCaches cs k with
    | some m => (m, [Action.netFetch false], [])
    | none => (offline503, [Action.netFetch false], [])

/-- The three current partitions of the worker. -/
structure SWState where
  staticC : Cache
  dataC : Cache
  tileC : Cache
deriving DecidableEq

/-- Outcome of the fetch event listener: none means the event was not
intercepted (no respondWith) and the request passes through untouched. -/
structure FetchOutcome where
  intercepted : Option SWResponse
  state : SWState
  fg : List Action
  bg : List Action
deriving DecidableEq

/-- The fetch event listener: the method and range guard, then classification
and dispatch to the per-category strategy. -/
def handleFetch (so : String) (st : SWState) (req : SWRequest) (nb : NetBehavior)
    (preload : Option SWResponse) : FetchOutcome :=
  if req.method ≠ "GET" ∨ req.hasRange = true then
    { intercepted := none, state := st, fg := [], bg := [] }
  else
    match classify so req with
    | Category.navigation =>
      let r := navigationStrategy st.staticC (indexKey so) preload (netOf nb)
      { intercepted := some r.1, state := st, fg := r.2.1, bg := r.2.2 }
    | Category.static =>
      let r := staticStrategy st.staticC req.url (netOf nb)
      { intercepted := some r.resp, state := { st with staticC := r.cache }, fg := r.fg, bg := r.bg }
    | Category.dataCat =>
      let r := dataStrategy st.dataC req.url nb
      { intercepted := some r.resp, state := { st with dataC := r.cache }, fg := r.fg, bg := r.bg }
    | Category.tileOrCdn =>
      let r := tileStrategy st.tileC req.url (netOf nb)
      { intercepted := some r.resp, state := { st with tileC := r.cache }, fg := r.fg, bg := r.bg }
    | Category.other =>
      let r := otherStrategy [st.staticC, st.dataC, st.tileC] req.url (netOf nb)
      { intercepted := some r.1, state := st, fg := r.2.1, bg := r.2.2 }

/-- The keep set of the activate handler: the three current partition names. -/
def keepNames : List String := [STATIC_CACHE, DATA_CACHE, TILE_CACHE]

/-- The activate handler garbage collection: delete every existing partition
whose name is not in the keep set. -/
def activateGC (existing : List String) : List String :=
  List.filter (fun k => decide (k ∈ keepNames)) existing

/-- Modelled from the spec: the fixed allow-list of external tile/CDN
hostnames, matched by case-insensitive suffix per the spec wording. -/
def specTileAllowlist : List (List Char) :=
  [osmChars, lioChars, geoChars, arcChars, unpkgChars]

/-- Modelled from the spec: the host is a case-insensitive suffix match of one
of the allow-list hostnames. -/
def specTileHostSuffix (h : String) : Bool :=
  specTileAllowlist.any (fun a => sufMatch a (lowerS h))

/-- No cache-write and no trim occurs in an action list. -/
def noMaint (l : List Action) : Prop :=
  Action.cacheWrite ∉ l ∧ Action.trimRun ∉ l

/-- Origin of the hosting page in the concrete scenarios. -/
def demoOrigin : String := "https://trails.example"

/-- A same-origin static asset URL. -/
def demoStaticURL : SWURL :=
  { origin := demoOrigin, host := "trails.example", pathname := "/app.js" }

/-- A same-origin dataset URL. -/
def demoDataURL : SWURL :=
  { origin := demoOrigin, host := "trails.example", pathname := "/OTN.geojson" }

/-- An OSM tile URL. -/
def demoTileURL : SWURL :=
  { origin := "https://tile.openstreetmap.org", host := "tile.openstreetmap.org",
    pathname := "/1/2/3.png" }

/-- A host that merely contains the LIO hostname as an inner substring. -/
def evilTileURL : SWURL :=
  { origin := "https://ws.lio.lrc.gov.on.ca.evil.com", host := "ws.lio.lrc.gov.on.ca.evil.com",
    pathname := "/t.bin" }

/-- A cross-origin URL matching no rule. -/
def demoOtherURL : SWURL :=
  { origin := "https://other.example", host := "other.example", pathname := "/page" }

/-- An ok basic response. -/
def demoResp : SWResponse :=
  { status := 200, statusText := "OK", rtype := RType.basic, body := "payload" }

/-- A second ok basic response. -/
def demoResp2 : SWResponse :=
  { status := 200, statusText := "OK", rtype := RType.basic, body := "payload2" }

/-- A two-entry partition. -/
def demoCache : Cache := [(demoStaticURL, demoResp), (demoDataURL, demoResp)]

/-- A tile partition holding the demo tile. -/
def demoTileCache : Cache := [(demoTileURL, demoResp)]

/-- A GET request for the substring-matching host. -/
def evilTileReq : SWRequest :=
  { method := "GET", hasRange := false, mode := ReqMode.cors, url := evilTileURL }

/-- A GET request for the OSM tile. -/
def demoTileReq : SWRequest :=
  { method := "GET", hasRange := false, mode := ReqMode.noCors, url := demoTileURL }

/-- A POST request. -/
def demoPostReq : SWRequest :=
  { method := "POST", hasRange := false, mode := ReqMode.cors, url := demoOtherURL }

/-- A GET request carrying a Range header. -/
def demoRangeReq : SWRequest :=
  { method := "GET", hasRange := true, mode := ReqMode.cors, url := demoStaticURL }

/-- A GET request for the static asset. -/
def demoStaticReq : SWRequest :=
  { method := "GET", hasRange := false, mode := ReqMode.cors, url := demoStaticURL }

/-- The worker state with all three partitions empty. -/
def emptyState : SWState := { staticC := [], dataC := [], tileC := [] }

/-- Partition names around an upgrade, stale v1 generations and the current ones. -/
def demoExisting : List String :=
  ["ontario-trails-static-v1", "ontario-trails-data-v1", "ontario-trails-tiles-v1",
   STATIC_CACHE, DATA_CACHE, TILE_CACHE]

/-- prefMatch decides list-prefix occurrence. -/
theorem prefMatch_iff : ∀ (p s : List Char), prefMatch p s = true ↔ ∃ t, p ++ t = s
  | [], s => by simp [prefMatch]
  | a :: as, [] => by simp [prefMatch]
  | a :: as, b :: bs => by
    rw [show prefMatch (a :: as) (b :: bs) = (a == b && prefMatch as bs) from rfl]
    simp only [Bool.and_eq_true, beq_iff_eq]
    constructor
    · rintro ⟨rfl, h⟩
      obtain ⟨t, rfl⟩ := (prefMatch_iff as bs).1 h
      exact ⟨t, rfl⟩
    · rintro ⟨t, ht⟩
      rw [List.cons_append] at ht
      injection ht with h1 h2
      exact ⟨h1, (prefMatch_iff as bs).2 ⟨t, h2⟩⟩

/-- subMatch decides unanchored (substring) occurrence. -/
theorem subMatch_iff : ∀ (p s : List Char), subMatch p s = true ↔ ∃ u v, u ++ (p ++ v) = s
  | p, [] => by
    simp only [subMatch, prefMatch_iff]
    constructor
    · rintro ⟨t, ht⟩
      exact ⟨[], t, by simpa using ht⟩
    · rintro ⟨u, v, huv⟩
      cases u with
      | nil => exact ⟨v, by simpa using huv⟩
      | cons x xs => simp at huv
  | p, b :: bs => by
    rw [show subMatch p (b :: bs) = (prefMatch p (b :: bs) || subMatch p bs) from rfl]
    simp only [Bool.or_eq_true, prefMatch_iff, subMatch_iff p bs]
    constructor
    · rintro (⟨t, ht⟩ | ⟨u, v, huv⟩)
      · exact ⟨[], t, by simpa using ht⟩
      · exact ⟨b :: u, v, by simp [huv]⟩
    · rintro ⟨u, v, huv⟩
      cases u with
      | nil => exact Or.inl ⟨v, by simpa using huv⟩
      | cons x xs =>
        rw [List.cons_append] at huv
        injection huv with h1 h2
        exact Or.inr ⟨xs, v, h2⟩

/-- sufMatch decides list-suffix occurrence. -/
theorem sufMatch_iff (p s : List Char) : sufMatch p s = true ↔ ∃ t, t ++ p = s := by
  unfold sufMatch
  rw [prefMatch_iff]
  constructor
  · rintro ⟨t, ht⟩
    exact ⟨t.reverse, by simpa using congrArg List.reverse ht⟩
  · rintro ⟨t, rfl⟩
    exact ⟨t.reverse, by simp⟩

/-- Entries surviving cacheDeleteKey have a different key. -/
theorem ne_of_mem_cacheDeleteKey (c : Cache) (k : SWURL) (e : SWURL × SWResponse)
    (he : e ∈ cacheDeleteKey c k) : e.1 ≠ k := by
  have h2 := (List.mem_filter.mp he).2
  simpa using h2

/-- No entry of cacheDeleteKey c k is found under key k. -/
theorem find?_cacheDeleteKey (c : Cache) (k : SWURL) :
    List.find? (fun e => decide (e.1 = k)) (cacheDeleteKey c k) = none := by
  rw [List.find?_eq_none]
  intro e he
  simpa using ne_of_mem_cacheDeleteKey c k e he

/-- Matching a partition that ends with an entry for k, with no earlier entry
for k, yields that entry. -/
theorem cacheMatch_append_last (f : Cache) (k : SWURL) (r : SWResponse)
    (h : List.find? (fun e => decide (e.1 = k)) f = none) :
    cacheMatch (f ++ [(k, r)]) k = some r := by
  unfold cacheMatch
  rw [List.find?_append, h]
  simp [List.find?]

/-- Dropping at most the deletion-filtered prefix of a put keeps the new entry
findable. -/
theorem cacheMatch_drop_cachePut (c : Cache) (k : SWURL) (r : SWResponse) (j : Nat)
    (hj : j ≤ List.length (cacheDeleteKey c k)) :
    cacheMatch (List.drop j (cachePut c k r)) k = some r := by
  unfold cachePut
  rw [List.drop_append_eq_append_drop,
    show j - List.length (cacheDeleteKey c k) = 0 from by omega, List.drop_zero]
  apply cacheMatch_append_last
  rw [List.find?_eq_none]
  intro e he
  simpa using ne_of_mem_cacheDeleteKey c k e (List.mem_of_mem_drop he)

/-- After a put followed by a trim with a positive limit, the new entry is
still cached: the put appends it as the newest entry and the trim only deletes
oldest entries. -/
theorem cacheMatch_trimCache_cachePut (c : Cache) (k : SWURL) (r : SWResponse) (n : Nat) :
    cacheMatch (trimCache (cachePut c k r) (some (n + 1))) k = some r := by
  by_cases hlen : List.length (cachePut c k r) ≤ n + 1
  · have htrim : trimCache (cachePut c k r) (some (n + 1)) = cachePut c k r := by
      simp [trimCache, hlen]
    rw [htrim]
    exact cacheMatch_append_last _ _ _ (find?_cacheDeleteKey c k)
  · have htrim : trimCache (cachePut c k r) (some (n + 1)) =
        List.drop (List.length (cachePut c k r) - (n + 1)) (cachePut c k r) := by
      simp [trimCache, hlen]
    rw [htrim]
    apply cacheMatch_drop_cachePut
    have hlen2 : List.length (cachePut c k r) = List.length (cacheDeleteKey c k) + 1 := by
      unfold cachePut
      simp
    omega

/-- The LIMITS table assigns 40 to the static partition. -/
theorem LIMITS_STATIC : LIMITS STATIC_CACHE = some 40 := by decide

/-- The LIMITS table assigns 40 to the data partition. -/
theorem LIMITS_DATA : LIMITS DATA_CACHE = some 40 := by decide

/-- The LIMITS table assigns 400 to the tile partition. -/
theorem LIMITS_TILE : LIMITS TILE_CACHE = some 400 := by decide

/-- C1: after any put with a positive limit exceeded, trimCache keeps exactly
maxEntries entries, namely the most recently inserted suffix in insertion
order, and the deleted keys are exactly the oldest length - maxEntries keys
(the FIFO prefix). -/
theorem trim_after_put_evicts_oldest (c : Cache) (k : SWURL) (r : SWResponse) (m : Nat)
    (hm : 0 < m) (hover : m < List.length (cachePut c k r)) :
    cacheKeys (trimCache (cachePut c k r) (some m)) =
        List.drop (List.length (cachePut c k r) - m) (cacheKeys (cachePut c k r))
      ∧ List.length (trimCache (cachePut c k r) (some m)) = m
      ∧ cacheKeys (cachePut c k r) =
          List.take (List.length (cachePut c k r) - m) (cacheKeys (cachePut c k r))
            ++ cacheKeys (trimCache (cachePut c k r) (some m)) := by
  obtain ⟨n, rfl⟩ : ∃ n, m = n + 1 := ⟨m - 1, by omega⟩
  have hlen : ¬ List.length (cachePut c k r) ≤ n + 1 := by omega
  have htrim : trimCache (cachePut c k r) (some (n + 1)) =
      List.drop (List.length (cachePut c k r) - (n + 1)) (cachePut c k r) := by
    simp [trimCache, hlen]
  refine ⟨?_, ?_, ?_⟩
  · rw [htrim]
    unfold cacheKeys
    exact List.map_drop _ _ _
  · rw [htrim, List.length_drop]
    omega
  · rw [htrim]
    unfold cacheKeys
    rw [List.map_drop]
    exact (List.take_append_drop (List.length (cachePut c k r) - (n + 1))
      (List.map Prod.fst (cachePut c k r))).symm

/-- C1 witness: a partition of two entries, a put of a third key, and limit 1. -/
theorem trim_after_put_evicts_oldest_witness :
    0 < 1
      ∧ 1 < List.length (cachePut demoCache demoTileURL demoResp)
      ∧ (cacheKeys (trimCache (cachePut demoCache demoTileURL demoResp) (some 1)) =
            List.drop (List.length (cachePut demoCache demoTileURL demoResp) - 1)
              (cacheKeys (cachePut demoCache demoTileURL demoResp))
          ∧ List.length (trimCache (cachePut demoCache demoTileURL demoResp) (some 1)) = 1
          ∧ cacheKeys (cachePut demoCache demoTileURL demoResp) =
              List.take (List.length (cachePut demoCache demoTileURL demoResp) - 1)
                (cacheKeys (cachePut demoCache demoTileURL demoResp))
                ++ cacheKeys (trimCache (cachePut demoCache demoTileURL demoResp) (some 1))) :=
  ⟨by decide, by decide,
    trim_after_put_evicts_oldest demoCache demoTileURL demoResp 1 (by decide) (by decide)⟩

/-- C10: trimCache with an undefined or zero limit is a no-op, and no deletion
occurs when the entry count is at or below the limit. -/
theorem trim_falsy_or_under_limit_noop (c : Cache) (m : Nat) :
    trimCache c none = c ∧ trimCache c (some 0) = c
      ∧ (List.length c ≤ m → trimCache c (some m) = c) := by
  refine ⟨rfl, rfl, fun h => ?_⟩
  cases m with
  | zero => rfl
  | succ n => simp [trimCache, h]

/-- C10 witness: the no-op cases at a concrete two-entry partition. -/
theorem trim_falsy_or_under_limit_noop_witness :
    trimCache demoCache none = demoCache
      ∧ trimCache demoCache (some 0) = demoCache
      ∧ trimCache demoCache (some 5) = demoCache :=
  ⟨(trim_falsy_or_under_limit_noop demoCache 5).1,
    (trim_falsy_or_under_limit_noop demoCache 5).2.1,
    (trim_falsy_or_under_limit_noop demoCache 5).2.2 (by decide)⟩

/-- C5: the activate garbage collection keeps exactly the existing partitions
whose name lies in the retained set, and every survivor is one of the current
static, data, or tiles partition names, so at most one partition per category
survives. -/
theorem activate_garbage_collects_stale (existing : List String) :
    (∀ n, n ∈ activateGC existing ↔ (n ∈ existing ∧ n ∈ keepNames))
      ∧ (∀ n, n ∈ activateGC existing →
          n = STATIC_CACHE ∨ n = DATA_CACHE ∨ n = TILE_CACHE) := by
  constructor
  · intro n
    unfold activateGC
    rw [List.mem_filter]
    simp
  · intro n hn
    unfold activateGC at hn
    have h2 := (List.mem_filter.mp hn).2
    simp only [decide_eq_true_eq, keepNames] at h2
    simpa using h2

/-- C5 witness: with the three stale v1 partitions and the three current ones
present, the current static partition survives and is one of the retained
names; the stale static-v1 partition is deleted. -/
theorem activate_garbage_collects_stale_witness :
    STATIC_CACHE ∈ activateGC demoExisting
      ∧ (STATIC_CACHE = STATIC_CACHE ∨ STATIC_CACHE = DATA_CACHE ∨ STATIC_CACHE = TILE_CACHE)
      ∧ activateGC demoExisting = [STATIC_CACHE, DATA_CACHE, TILE_CACHE] :=
  ⟨by decide,
    (activate_garbage_collects_stale demoExisting).2 STATIC_CACHE (by decide),
    by decide⟩

/-- The static branch on a cache hit: the cached entry is returned with no
fetch and no state change. -/
theorem staticStrategy_hit (c : Cache) (k : SWURL) (net : Option SWResponse)
    (cached : SWResponse) (h : cacheMatch c k = some cached) :
    staticStrategy c k net = { resp := cached, cache := c, fg := [], bg := [] } := by
  unfold staticStrategy
  rw [h]

/-- C3: the static branch is cache-first: a cached entry is returned untouched
with no fetch; on a miss the network response is returned, stored and trimmed
in the background only when ok and of basic or default type; a rejected fetch
on a miss yields the synthesized 503; and after one successful cacheable fetch
a repeated request is answered from the cache with no second fetch. -/
theorem static_cache_first :
    (∀ (c : Cache) (k : SWURL) (net : Option SWResponse) (cached : SWResponse),
        cacheMatch c k = some cached →
        staticStrategy c k net = { resp := cached, cache := c, fg := [], bg := [] })
    ∧ (∀ (c : Cache) (k : SWURL) (r : SWResponse),
        cacheMatch c k = none → okBasicOrDefault r = true →
        staticStrategy c k (some r) =
          { resp := r, cache := trimCache (cachePut c k r) (LIMITS STATIC_CACHE),
            fg := [Action.netFetch false], bg := [Action.cacheWrite, Action.trimRun] })
    ∧ (∀ (c : Cache) (k : SWURL) (r : SWResponse),
        cacheMatch c k = none → okBasicOrDefault r = false →
        staticStrategy c k (some r) =
          { resp := r, cache := c, fg := [Action.netFetch false], bg := [] })
    ∧ (∀ (c : Cache) (k : SWURL),
        cacheMatch c k = none →
        staticStrategy c k none =
          { resp := offline503, cache := c, fg := [Action.netFetch false], bg := [] })
    ∧ (∀ (c : Cache) (k : SWURL) (r : SWResponse) (net2 : Option SWResponse),
        cacheMatch c k = none → okBasicOrDefault r = true →
        staticStrategy ((staticStrategy c k (some r)).cache) k net2 =
          { resp := r, cache := (staticStrategy c k (some r)).cache, fg := [], bg := [] }) := by
  refine ⟨?_, ?_, ?_, ?_, ?_⟩
  · intro c k net cached h
    exact staticStrategy_hit c k net cached h
  · intro c k r h hok
    unfold staticStrategy
    rw [h]
    simp [hok]
  · intro c k r h hok
    unfold staticStrategy
    rw [h]
    simp [hok]
  · intro c k h
    unfold staticStrategy
    rw [h]
  · intro c k r net2 h hok
    have hc : (staticStrategy c k (some r)).cache =
        trimCache (cachePut c k r) (LIMITS STATIC_CACHE) := by
      unfold staticStrategy
      rw [h]
      simp [hok]
    rw [hc]
    refine staticStrategy_hit _ _ _ _ ?_
    rw [LIMITS_STATIC]
    exact cacheMatch_trimCache_cachePut c k r 39

/-- C3 witness: a cache miss with an ok basic response is stored and trimmed in
the background and the response returned. -/
theorem static_cache_first_witness :
    cacheMatch ([] : Cache) demoStaticURL = none
      ∧ okBasicOrDefault demoResp = true
      ∧ staticStrategy [] demoStaticURL (some demoResp) =
          { resp := demoResp,
            cache := trimCache (cachePut [] demoStaticURL demoResp) (LIMITS STATIC_CACHE),
            fg := [Action.netFetch false], bg := [Action.cacheWrite, Action.trimRun] } :=
  ⟨rfl, by decide, static_cache_first.2.1 [] demoStaticURL demoResp rfl (by decide)⟩

/-- C2: the data branch is network-first with the abortable 8000 ms timeout: a
response arriving within the timeout is returned, and stored and trimmed in the
background when ok or opaque; a response arriving at or after the timeout, or a
network error, falls back to the cached entry when present and to the
synthesized 503 otherwise. -/
theorem data_network_first_with_timeout :
    DATA_TIMEOUT_MS = 8000
      ∧ (∀ (c : Cache) (k : SWURL) (t : Nat) (r : SWResponse),
          t < DATA_TIMEOUT_MS → okOrOpq r = true →
          dataStrategy c k (NetBehavior.respondsIn t r) =
            { resp := r, cache := trimCache (cachePut c k r) (LIMITS DATA_CACHE),
              fg := [Action.netFetch true], bg := [Action.cacheWrite, Action.trimRun] })
      ∧ (∀ (c : Cache) (k : SWURL) (t : Nat) (r : SWResponse),
          t < DATA_TIMEOUT_MS → okOrOpq r = false →
          dataStrategy c k (NetBehavior.respondsIn t r) =
            { resp := r, cache := c, fg := [Action.netFetch true], bg := [] })
      ∧ (∀ (c : Cache) (k : SWURL) (t : Nat) (r : SWResponse) (cached : SWResponse),
          DATA_TIMEOUT_MS ≤ t → cacheMatch c k = some cached →
          dataStrategy c k (NetBehavior.respondsIn t r) =
            { resp := cached, cache := c, fg := [Action.netFetch true], bg := [] })
      ∧ (∀ (c : Cache) (k : SWURL) (t : Nat) (r : SWResponse),
          DATA_TIMEOUT_MS ≤ t → cacheMatch c k = none →
          dataStrategy c k (NetBehavior.respondsIn t r) =
            { resp := offline503, cache := c, fg := [Action.netFetch true], bg := [] })
      ∧ (∀ (c : Cache) (k : SWURL) (cached : SWResponse),
          cacheMatch c k = some cached →
          dataStrategy c k NetBehavior.netError =
            { resp := cached, cache := c, fg := [Action.netFetch true], bg := [] })
      ∧ (∀ (c : Cache) (k : SWURL),
          cacheMatch c k = none →
          dataStrategy c k NetBehavior.netError =
            { resp := offline503, cache := c, fg := [Action.netFetch true], bg := [] }) := by
  refine ⟨rfl, ?_, ?_, ?_, ?_, ?_, ?_⟩
  · intro c k t r ht hok
    have hnet : fromNetworkWithTimeout DATA_TIMEOUT_MS (NetBehavior.respondsIn t r) = some r := by
      simp [fromNetworkWithTimeout, ht]
    unfold dataStrategy
    rw [hnet]
    simp [hok]
  · intro c k t r ht hok
    have hnet : fromNetworkWithTimeout DATA_TIMEOUT_MS (NetBehavior.respondsIn t r) = some r := by
      simp [fromNetworkWithTimeout, ht]
    unfold dataStrategy
    rw [hnet]
    simp [hok]
  · intro c k t r cached ht h
    have hnet : fromNetworkWithTimeout DATA_TIMEOUT_MS (NetBehavior.respondsIn t r) = none := by
      simp [fromNetworkWithTimeout, Nat.not_lt.mpr ht]
    unfold dataStrategy
    rw [hnet, h]
  · intro c k t r ht h
    have hnet : fromNetworkWithTimeout DATA_TIMEOUT_MS (NetBehavior.respondsIn t r) = none := by
      simp [fromNetworkWithTimeout, Nat.not_lt.mpr ht]
    unfold dataStrategy
    rw [hnet, h]
  · intro c k cached h
    unfold dataStrategy
    rw [show fromNetworkWithTimeout DATA_TIMEOUT_MS NetBehavior.netError = none from rfl, h]
  · intro c k h
    unfold dataStrategy
    rw [show fromNetworkWithTimeout DATA_TIMEOUT_MS NetBehavior.netError = none from rfl, h]

/-- C2 witness: a response that arrives only at 9000 ms is aborted and the
previously cached entry is returned instead. -/
theorem data_network_first_with_timeout_witness :
    DATA_TIMEOUT_MS ≤ 9000
      ∧ cacheMatch [(demoDataURL, demoResp)] demoDataURL = some demoResp
      ∧ dataStrategy [(demoDataURL, demoResp)] demoDataURL (NetBehavior.respondsIn 9000 demoResp2) =
          { resp := demoResp, cache := [(demoDataURL, demoResp)],
            fg := [Action.netFetch true], bg := [] } :=
  ⟨by decide, by decide,
    data_network_first_with_timeout.2.2.2.1 [(demoDataURL, demoResp)] demoDataURL 9000 demoResp2
      demoResp (by decide) (by decide)⟩

/-- C4: the tile branch is stale-while-revalidate: with a cached entry the
cached response is returned at once and the no-store revalidation runs in the
background, updating the partition when the network response is ok or opaque;
without a cached entry the handler waits for the network, stores an ok or
opaque response and returns the network response, and yields the synthesized
503 when the fetch rejects. -/
theorem tile_stale_while_revalidate :
    (∀ (c : Cache) (k : SWURL) (r : SWResponse) (cached : SWResponse),
        cacheMatch c k = some cached → okOrOpq r = true →
        tileStrategy c k (some r) =
          { resp := cached, cache := trimCache (cachePut c k r) (LIMITS TILE_CACHE),
            fg := [], bg := [Action.netFetch true, Action.cacheWrite, Action.trimRun] })
    ∧ (∀ (c : Cache) (k : SWURL) (r : SWResponse) (cached : SWResponse),
        cacheMatch c k = some cached → okOrOpq r = false →
        tileStrategy c k (some r) =
          { resp := cached, cache := c, fg := [], bg := [Action.netFetch true] })
    ∧ (∀ (c : Cache) (k : SWURL) (cached : SWResponse),
        cacheMatch c k = some cached →
        tileStrategy c k none =
          { resp := cached, cache := c, fg := [], bg := [Action.netFetch true] })
    ∧ (∀ (c : Cache) (k : SWURL) (r : SWResponse),
        cacheMatch c k = none → okOrOpq r = true →
        tileStrategy c k (some r) =
          { resp := r, cache := trimCache (cachePut c k r) (LIMITS TILE_CACHE),
            fg := [Action.netFetch true, Action.cacheWrite, Action.trimRun], bg := [] })
    ∧ (∀ (c : Cache) (k : SWURL) (r : SWResponse),
        cacheMatch c k = none → okOrOpq r = false →
        tileStrategy c k (some r) =
          { resp := r, cache := c, fg := [Action.netFetch true], bg := [] })
    ∧ (∀ (c : Cache) (k : SWURL),
        cacheMatch c k = none →
        tileStrategy c k none =
          { resp := offline503, cache := c, fg := [Action.netFetch true], bg := [] }) := by
  refine ⟨?_, ?_, ?_, ?_, ?_, ?_⟩
  · intro c k r cached h hok
    unfold tileStrategy
    rw [h]
    simp [hok]
  · intro c k r cached h hok
    unfold tileStrategy
    rw [h]
    simp [hok]
  · intro c k cached h
    unfold tileStrategy
    rw [h]
  · intro c k r h hok
    unfold tileStrategy
    rw [h]
    simp [hok]
  · intro c k r h hok
    unfold tileStrategy
    rw [h]
    simp [hok]
  · intro c k h
    unfold tileStrategy
    rw [h]

/-- C4 witness: a cached tile is returned at once while the background
revalidation stores the fresh ok response and trims. -/
theorem tile_stale_while_revalidate_witness :
    cacheMatch demoTileCache demoTileURL = some demoResp
      ∧ okOrOpq demoResp2 = true
      ∧ tileStrategy demoTileCache demoTileURL (some demoResp2) =
          { resp := demoResp,
            cache := trimCache (cachePut demoTileCache demoTileURL demoResp2) (LIMITS TILE_CACHE),
            fg := [], bg := [Action.netFetch true, Action.cacheWrite, Action.trimRun] } :=
  ⟨by decide, by decide,
    tile_stale_while_revalidate.1 demoTileCache demoTileURL demoResp2 demoResp
      (by decide) (by decide)⟩

/-- C8: a request whose method is not GET, or which carries a Range header, is
never intercepted: the listener returns without respondWith, performs no
action, and leaves every partition unchanged. -/
theorem non_get_or_range_passthrough (so : String) (st : SWState) (req : SWRequest)
    (nb : NetBehavior) (preload : Option SWResponse)
    (h : req.method ≠ "GET" ∨ req.hasRange = true) :
    handleFetch so st req nb preload =
      { intercepted := none, state := st, fg := [], bg := [] } := by
  unfold handleFetch
  rw [if_pos h]

/-- C8 witness: a POST request and a GET request with a Range header both pass
through untouched. -/
theorem non_get_or_range_passthrough_witness :
    (demoPostReq.method ≠ "GET" ∨ demoPostReq.hasRange = true)
      ∧ handleFetch demoOrigin emptyState demoPostReq NetBehavior.netError none =
          { intercepted := none, state := emptyState, fg := [], bg := [] }
      ∧ (demoRangeReq.method ≠ "GET" ∨ demoRangeReq.hasRange = true)
      ∧ handleFetch demoOrigin emptyState demoRangeReq NetBehavior.netError none =
          { intercepted := none, state := emptyState, fg := [], bg := [] } :=
  ⟨Or.inl (by decide),
    non_get_or_range_passthrough demoOrigin emptyState demoPostReq NetBehavior.netError none
      (Or.inl (by decide)),
    Or.inr (by decide),
    non_get_or_range_passthrough demoOrigin emptyState demoRangeReq NetBehavior.netError none
      (Or.inr (by decide))⟩

/-- C6: classification is deterministic (a pure function of mode and URL) and
the five categories are mutually exclusive and total under the dispatch order
navigation, static, data, tile-or-cdn, other: each category holds exactly when
its own test passes and every earlier test fails. -/
theorem classify_deterministic_total (so : String) (r : SWRequest) :
    classify so r = classify so r
      ∧ (classify so r = Category.navigation ↔ r.mode = ReqMode.navigate)
      ∧ (classify so r = Category.static ↔
          (r.mode ≠ ReqMode.navigate ∧ isStaticURL so r.url = true))
      ∧ (classify so r = Category.dataCat ↔
          (r.mode ≠ ReqMode.navigate ∧ isStaticURL so r.url = false
            ∧ isDataURL so r.url = true))
      ∧ (classify so r = Category.tileOrCdn ↔
          (r.mode ≠ ReqMode.navigate ∧ isStaticURL so r.url = false
            ∧ isDataURL so r.url = false ∧ isTileOrCDN r.url = true))
      ∧ (classify so r = Category.other ↔
          (r.mode ≠ ReqMode.navigate ∧ isStaticURL so r.url = false
            ∧ isDataURL so r.url = false ∧ isTileOrCDN r.url = false)) := by
  refine ⟨rfl, ?_, ?_, ?_, ?_, ?_⟩
  all_goals unfold classify
  all_goals split_ifs with h1 h2 h3 h4 <;> simp_all

/-- C6 witness: the static clause of the characterization at a concrete
same-origin script request. -/
theorem classify_deterministic_total_witness :
    classify demoOrigin demoStaticReq = Category.static ↔
      (demoStaticReq.mode ≠ ReqMode.navigate
        ∧ isStaticURL demoOrigin demoStaticReq.url = true) :=
  (classify_deterministic_total demoOrigin demoStaticReq).2.2.1

/-- The tile-or-cdn host test, characterized: exact OSM host or dot-boundary
OSM suffix, an unanchored substring occurrence of either LIO hostname, or a
plain suffix occurrence of the arcgisonline or unpkg hostname, all on the
lowercased host. -/
theorem isTileOrCDN_iff (u : SWURL) :
    isTileOrCDN u = true ↔
      (lowerS u.host = osmChars
        ∨ (∃ t, t ++ ('.' :: osmChars) = lowerS u.host)
        ∨ (∃ a b, a ++ (lioChars ++ b) = lowerS u.host)
        ∨ (∃ a b, a ++ (geoChars ++ b) = lowerS u.host)
        ∨ (∃ t, t ++ arcChars = lowerS u.host)
        ∨ (∃ t, t ++ unpkgChars = lowerS u.host)) := by
  unfold isTileOrCDN reOsm reLio reArc reUnpkg
  simp only [Bool.or_eq_true, beq_iff_eq, sufMatch_iff, subMatch_iff, or_assoc]

/-- C7 counterexample: the host ws.lio.lrc.gov.on.ca.evil.com is classified
tile-or-cdn by the worker although it is not a suffix match of any allow-list
hostname: the LIO rule of the source is an unanchored substring test. -/
theorem tile_allowlist_counterexample :
    classify demoOrigin evilTileReq = Category.tileOrCdn
      ∧ specTileHostSuffix evilTileURL.host = false := by
  exact ⟨by decide, by decide⟩

/-- C7 amended: classify returns tile-or-cdn exactly when no earlier rule
matches and the lowercased host equals tile.openstreetmap.org or ends in
.tile.openstreetmap.org, or contains ws.lio.lrc.gov.on.ca or
ws.geoservices.lrc.gov.on.ca anywhere as a substring, or ends in
arcgisonline.com or unpkg.com as a plain suffix. -/
theorem tile_allowlist_characterization (so : String) (r : SWRequest) :
    classify so r = Category.tileOrCdn ↔
      (r.mode ≠ ReqMode.navigate ∧ isStaticURL so r.url = false ∧ isDataURL so r.url = false
        ∧ (lowerS r.url.host = osmChars
            ∨ (∃ t, t ++ ('.' :: osmChars) = lowerS r.url.host)
            ∨ (∃ a b, a ++ (lioChars ++ b) = lowerS r.url.host)
            ∨ (∃ a b, a ++ (geoChars ++ b) = lowerS r.url.host)
            ∨ (∃ t, t ++ arcChars = lowerS r.url.host)
            ∨ (∃ t, t ++ unpkgChars = lowerS r.url.host))) := by
  have hclass : classify so r = Category.tileOrCdn ↔
      (r.mode ≠ ReqMode.navigate ∧ isStaticURL so r.url = false ∧ isDataURL so r.url = false
        ∧ isTileOrCDN r.url = true) := by
    unfold classify
    split_ifs with h1 h2 h3 h4 <;> simp_all
  rw [hclass, isTileOrCDN_iff]

/-- C7 amended witness: the characterization at the substring-matching host. -/
theorem tile_allowlist_characterization_witness :
    classify demoOrigin evilTileReq = Category.tileOrCdn ↔
      (evilTileReq.mode ≠ ReqMode.navigate
        ∧ isStaticURL demoOrigin evilTileReq.url = false
        ∧ isDataURL demoOrigin evilTileReq.url = false
        ∧ (lowerS evilTileReq.url.host = osmChars
            ∨ (∃ t, t ++ ('.' :: osmChars) = lowerS evilTileReq.url.host)
            ∨ (∃ a b, a ++ (lioChars ++ b) = lowerS evilTileReq.url.host)
            ∨ (∃ a b, a ++ (geoChars ++ b) = lowerS evilTileReq.url.host)
            ∨ (∃ t, t ++ arcChars = lowerS evilTileReq.url.host)
            ∨ (∃ t, t ++ unpkgChars = lowerS evilTileReq.url.host))) :=
  tile_allowlist_characterization demoOrigin evilTileReq

/-- The empty action list performs no maintenance. -/
theorem noMaint_nil : noMaint [] := by
  constructor <;> simp

/-- A bare fetch action performs no maintenance. -/
theorem noMaint_netFetch (b : Bool) : noMaint [Action.netFetch b] := by
  constructor <;> simp

/-- C9 counterexample: an intercepted tile request with an empty tile partition
and an ok network response awaits the cache write and the trim before the
response is returned: they appear in the foreground actions of the handling. -/
theorem tile_miss_awaits_maintenance_counterexample :
    Action.cacheWrite ∈
        (handleFetch demoOrigin emptyState demoTileReq (NetBehavior.respondsIn 0 demoResp) none).fg
      ∧ Action.trimRun ∈
        (handleFetch demoOrigin emptyState demoTileReq (NetBehavior.respondsIn 0 demoResp) none).fg
      ∧ (handleFetch demoOrigin emptyState demoTileReq (NetBehavior.respondsIn 0 demoResp) none).intercepted
          = some demoResp := by
  exact ⟨by decide, by decide, by decide⟩

/-- C9 amended: the static, data, navigation, and other branches, and the tile
branch when a cached entry exists, never await a cache write or trim before the
response is returned; only the tile branch on a cache miss with a storable
network response awaits the write and the trim before returning the response. -/
theorem response_before_maintenance_amended :
    (∀ (c : Cache) (k : SWURL) (net : Option SWResponse), noMaint (staticStrategy c k net).fg)
      ∧ (∀ (c : Cache) (k : SWURL) (nb : NetBehavior), noMaint (dataStrategy c k nb).fg)
      ∧ (∀ (stc : Cache) (ik : SWURL) (p net : Option SWResponse),
          noMaint (navigationStrategy stc ik p net).2.1)
      ∧ (∀ (cs : List Cache) (k : SWURL) (net : Option SWResponse),
          noMaint (otherStrategy cs k net).2.1)
      ∧ (∀ (c : Cache) (k : SWURL) (net : Option SWResponse) (cached : SWResponse),
          cacheMatch c k = some cached → noMaint (tileStrategy c k net).fg)
      ∧ (∀ (c : Cache) (k : SWURL) (r : SWResponse),
          cacheMatch c k = none → okOrOpq r = true →
          (tileStrategy c k (some r)).fg =
            [Action.netFetch true, Action.cacheWrite, Action.trimRun]) := by
  refine ⟨?_, ?_, ?_, ?_, ?_, ?_⟩
  · intro c k net
    cases h : cacheMatch c k with
    | some cached =>
      rw [staticStrategy_hit c k net cached h]
      exact noMaint_nil
    | none =>
      cases net with
      | none =>
        have heq : staticStrategy c k none =
            { resp := offline503, cache := c, fg := [Action.netFetch false], bg := [] } := by
          unfold staticStrategy
          rw [h]
        rw [heq]
        exact noMaint_netFetch false
      | some r =>
        cases hok : okBasicOrDefault r with
        | true =>
          have heq : staticStrategy c k (some r) =
              { resp := r, cache := trimCache (cachePut c k r) (LIMITS STATIC_CACHE),
                fg := [Action.netFetch false], bg := [Action.cacheWrite, Action.trimRun] } := by
            unfold staticStrategy
            rw [h]
            simp [hok]
          rw [heq]
          exact noMaint_netFetch false
        | false =>
          have heq : staticStrategy c k (some r) =
              { resp := r, cache := c, fg := [Action.netFetch false], bg := [] } := by
            unfold staticStrategy
            rw [h]
            simp [hok]
          rw [heq]
          exact noMaint_netFetch false
  · intro c k nb
    cases h : fromNetworkWithTimeout DATA_TIMEOUT_MS nb with
    | some r =>
      cases hok : okOrOpq r with
      | true =>
        have heq : dataStrategy c k nb =
            { resp := r, cache := trimCache (cachePut c k r) (LIMITS DATA_CACHE),
              fg := [Action.netFetch true], bg := [Action.cacheWrite, Action.trimRun] } := by
          unfold dataStrategy
          rw [h]
          simp [hok]
        rw [heq]
        exact noMaint_netFetch true
      | false =>
        have heq : dataStrategy c k nb =
            { resp := r, cache := c, fg := [Action.netFetch true], bg := [] } := by
          unfold dataStrategy
          rw [h]
          simp [hok]
        rw [heq]
        exact noMaint_netFetch true
    | none =>
      cases hm : cacheMatch c k with
      | some cached =>
        have heq : dataStrategy c k nb =
            { resp := cached, cache := c, fg := [Action.netFetch true], bg := [] } := by
          unfold dataStrategy
          rw [h, hm]
        rw [heq]
        exact noMaint_netFetch true
      | none =>
        have heq : dataStrategy c k nb =
            { resp := offline503, cache := c, fg := [Action.netFetch true], bg := [] } := by
          unfold dataStrategy
          rw [h, hm]
        rw [heq]
        exact noMaint_netFetch true
  · intro stc ik p net
    cases p with
    | some q =>
      rw [show navigationStrategy stc ik (some q) net = (q, [], []) from rfl]
      exact noMaint_nil
    | none =>
      cases net with
      | some r =>
        rw [show navigationStrategy stc ik none (some r) = (r, [Action.netFetch false], [])
          from rfl]
        exact noMaint_netFetch false
      | none =>
        cases hm : cacheMatch stc ik with
        | some cached =>
          have heq : navigationStrategy stc ik none none =
              (cached, [Action.netFetch false], []) := by
            unfold navigationStrategy
            rw [hm]
          rw [heq]
          exact noMaint_netFetch false
        | none =>
          have heq : navigationStrategy stc ik none none =
              (offline503, [Action.netFetch false], []) := by
            unfold navigationStrategy
            rw [hm]
          rw [heq]
          exact noMaint_netFetch false
  · intro cs k net
    cases net with
    | some r =>
      rw [show otherStrategy cs k (some r) = (r, [Action.netFetch false], []) from rfl]
      exact noMaint_netFetch false
    | none =>
      cases hm : scanCaches cs k with
      | some m =>
        have heq : otherStrategy cs k none = (m, [Action.netFetch false], []) := by
          unfold otherStrategy
          rw [hm]
        rw [heq]
        exact noMaint_netFetch false
      | none =>
        have heq : otherStrategy cs k none = (offline503, [Action.netFetch false], []) := by
          unfold otherStrategy
          rw [hm]
        rw [heq]
        exact noMaint_netFetch false
  · intro c k net cached h
    cases net with
    | none =>
      have heq : tileStrategy c k none =
          { resp := cached, cache := c, fg := [], bg := [Action.netFetch true] } := by
        unfold tileStrategy
        rw [h]
      rw [heq]
      exact noMaint_nil
    | some r =>
      cases hok : okOrOpq r with
      | true =>
        have heq : tileStrategy c k (some r) =
            { resp := cached, cache := trimCache (cachePut c k r) (LIMITS TILE_CACHE),
              fg := [], bg := [Action.netFetch true, Action.cacheWrite, Action.trimRun] } := by
          unfold tileStrategy
          rw [h]
          simp [hok]
        rw [heq]
        exact noMaint_nil
      | false =>
        have heq : tileStrategy c k (some r) =
            { resp := cached, cache := c, fg := [], bg := [Action.netFetch true] } := by
          unfold tileStrategy
          rw [h]
          simp [hok]
        rw [heq]
        exact noMaint_nil
  · intro c k r h hok
    unfold tileStrategy
    rw [h]
    simp [hok]

/-- C9 amended witness: a tile request with a cached entry performs no awaited
maintenance even though the background revalidation stores the fresh
response. -/
theorem response_before_maintenance_amended_witness :
    cacheMatch demoTileCache demoTileURL = some demoResp
      ∧ noMaint (tileStrategy demoTileCache demoTileURL (some demoResp2)).fg :=
  ⟨by decide,
    response_before_maintenance_amended.2.2.2.2.1 demoTileCache demoTileURL (some demoResp2)
      demoResp (by decide)⟩

end SW
